import Mathlib

/-
Verification of the transaction reconstruction and formatting engine of
extract-http-log (src/extract_http_log.py) against its specification.

Modelling conventions:
* Python strings are Lean `String`s; machine integers are `Int`/`Nat`
  (session indices, byte counts — all values stay small, no wrap-around
  occurs in the source).
* Calls into the Python standard library that the repository does not
  define are passed in as explicit function parameters:
  - `jp : String → Option Json` models `json.loads` (`none` = raised
    `JSONDecodeError`);
  - `u8 : List Nat → String` models `bytes(..).decode("utf-8",
    errors="replace")` applied to a byte list (which never raises);
  - `tf : String → Option String` models the composite
    `float(ts)` / `datetime.fromtimestamp` / `strftime("[%d/%b/%Y:%H:%M:%S %z]")`
    used for a non-empty timestamp field, returning the bracketed time
    string, with `none` modelling a raised exception (e.g. `float("x")`).
  Theorems that do not depend on the behaviour of these collaborators are
  proved for all instantiations.
* `json.dumps(v, ensure_ascii=False[, sort_keys=True])` is modelled by an
  executable renderer over the `Json` type (default separators, minimal
  escaping, recursive key sorting for the `sort_keys=True` call site).
* Input streams are modelled at the tuple level: each record is the list of
  tab-separated column strings the source obtains by `line.split("\t")`.
-/

namespace ExtractHttpLog

/-- JSON values as produced by the Python `json` module for the payloads this
tool handles; numbers are modelled as integers (floating-point payloads are
outside the scope of the claims considered here). -/
inductive Json where
  | null : Json
  | bool (b : Bool) : Json
  | num (n : Int) : Json
  | str (s : String) : Json
  | arr (elems : List Json) : Json
  | obj (fields : List (String × Json)) : Json

/-- Embeds the module-level constant MASK_KEYS of src/extract_http_log.py
(the set comprehension lower-cases each entry; the entries are already
lower-case, so the resulting set is this list). -/
def MASK_KEYS : List String :=
  ["password", "passwd", "token", "access_token", "refresh_token", "secret", "ssn"]

/-- Models Python `str.lower` on one character, restricted to ASCII (the
sensitive-key comparison only ever matches ASCII key names). -/
def lowerChar (c : Char) : Char :=
  if ('A' ≤ c ∧ c ≤ 'Z') then Char.ofNat (c.toNat + 32) else c

/-- Models Python `str.lower`, restricted to ASCII case folding. -/
def lowerStr (s : String) : String := String.mk (s.data.map lowerChar)

mutual
/-- Embeds mask_value of src/extract_http_log.py: dictionaries are rebuilt
with values under sensitive keys (case-insensitively) replaced by the fixed
marker, lists are masked element-wise, everything else is returned as-is. -/
def mask_value : Json → Json
  | Json.null => Json.null
  | Json.bool b => Json.bool b
  | Json.num n => Json.num n
  | Json.str s => Json.str s
  | Json.arr xs => Json.arr (maskElems xs)
  | Json.obj kvs => Json.obj (maskFields kvs)

/-- Element-wise masking of a list (the list comprehension in mask_value). -/
def maskElems : List Json → List Json
  | [] => []
  | x :: xs => mask_value x :: maskElems xs

/-- Key-by-key masking of a dictionary (the dict comprehension in
mask_value). -/
def maskFields : List (String × Json) → List (String × Json)
  | [] => []
  | (k, v) :: kvs =>
      (k, if lowerStr k ∈ MASK_KEYS then Json.str ("******") else mask_value v) :: maskFields kvs
end

/-- Value of a hexadecimal digit character, `none` for non-hex characters
(membership in Python's `string.hexdigits`). -/
def hexVal (c : Char) : Option Nat :=
  if ('0' ≤ c ∧ c ≤ '9') then some (c.toNat - 48)
  else if ('a' ≤ c ∧ c ≤ 'f') then some (c.toNat - 87)
  else if ('A' ≤ c ∧ c ≤ 'F') then some (c.toNat - 55)
  else none

/-- Tests membership in Python's `string.hexdigits`. -/
def isHexDigitPy (c : Char) : Bool := (hexVal c).isSome

/-- Embeds the guard `len(s) % 2 == 0 and all(c in hex_chars for c in s)`
used by try_decode_hex and by the response size fallback. -/
def isEvenHex (s : String) : Bool :=
  s.length % 2 == 0 && s.data.all isHexDigitPy

/-- Embeds `bytes.fromhex` on an (even-length, all-hex) character list:
consecutive digit pairs become byte values. -/
def hexBytes : List Char → List Nat
  | a :: b :: rest => (16 * ((hexVal a).getD 0) + ((hexVal b).getD 0)) :: hexBytes rest
  | _ => []

/-- Embeds try_decode_hex of src/extract_http_log.py. `u8` models
`bytes.decode("utf-8", errors="replace")`, which never raises, so the
`except` branch of the source is dead and does not appear. -/
def try_decode_hex (u8 : List Nat → String) (s : String) : String :=
  if isEvenHex s then u8 (hexBytes s.data) else s

/-- Embeds parse_body_to_json of src/extract_http_log.py. The decoded value
is `Sum.inl` a JSON value or `Sum.inr` raw text, paired with the is-json
flag. The source compares `maybe_text is not body` (object identity);
for a faithful `u8` the decode of a non-empty even-hex string has at most
half as many characters as the input, and for the empty string both sides
agree, so string inequality is an equivalent test. -/
def parse_body_to_json (jp : String → Option Json) (u8 : List Nat → String)
    (body : String) : (Json ⊕ String) × Bool :=
  match jp body with
  | some v => (Sum.inl v, true)
  | none =>
    let maybe_text := try_decode_hex u8 body
    if maybe_text ≠ body then
      match jp maybe_text with
      | some v => (Sum.inl v, true)
      | none => (Sum.inr maybe_text, false)
    else (Sum.inr body, false)

/-- Embeds the guard `rclen and rclen.isdigit()`: non-empty and all decimal
digits. (Python's str.isdigit also accepts some non-ASCII digit characters;
the dissector emits ASCII only, and the model is restricted accordingly.) -/
def pyIsDigitStr (s : String) : Bool :=
  !s.isEmpty && s.data.all Char.isDigit

/-- Decimal value of a digit string (`int` applied to a string accepted by
pyIsDigitStr). -/
def digitsVal (cs : List Char) : Nat :=
  cs.foldl (fun a c => 10 * a + (c.toNat - 48)) 0

/-- Models Python `int(s)` on the strings relevant here: an optional sign
followed by a non-empty run of decimal digits (surrounding whitespace and
digit-group underscores, which Python also accepts, do not occur in
tshark's tcp.stream column and are not modelled). -/
def parsePyInt (s : String) : Option Int :=
  match s.data with
  | [] => none
  | '-' :: rest =>
      if !rest.isEmpty && rest.all Char.isDigit then some (-(digitsVal rest : Int)) else none
  | '+' :: rest =>
      if !rest.isEmpty && rest.all Char.isDigit then some ((digitsVal rest : Int)) else none
  | cs =>
      if cs.all Char.isDigit then some ((digitsVal cs : Int)) else none

/-- Embeds the response size resolution block of main (lines 212-229 of
src/extract_http_log.py): declared content-length if it is a digit string,
else half the length of an even-hex body, else the UTF-8 byte length of the
body text. Lean strings are valid Unicode, so the `encode("utf-8")` call
(which only raises on lone surrogates) cannot fail in the model; the
source's final fallback to 0 is therefore unreachable. -/
def resolve_size (rclen rbody : String) : Nat :=
  if pyIsDigitStr rclen then digitsVal rclen.data
  else if isEvenHex rbody then rbody.length / 2
  else rbody.utf8ByteSize

/-- Decimal digit character (value-to-character map used by the integer
renderer). -/
def digCh : Nat → Char
  | 0 => '0'
  | 1 => '1'
  | 2 => '2'
  | 3 => '3'
  | 4 => '4'
  | 5 => '5'
  | 6 => '6'
  | 7 => '7'
  | 8 => '8'
  | _ => '9'

/-- Lower-case hexadecimal digit character (for the `\u00XX` escapes of the
`json.dumps` model). -/
def hexCh : Nat → Char
  | 0 => '0'
  | 1 => '1'
  | 2 => '2'
  | 3 => '3'
  | 4 => '4'
  | 5 => '5'
  | 6 => '6'
  | 7 => '7'
  | 8 => '8'
  | 9 => '9'
  | 10 => 'a'
  | 11 => 'b'
  | 12 => 'c'
  | 13 => 'd'
  | 14 => 'e'
  | _ => 'f'

/-- Decimal digits of a natural number, accumulator style with explicit fuel
(models the rendering of a non-negative int by `str`/`json.dumps`). -/
def natCharsAux : Nat → Nat → List Char → List Char
  | 0, _, acc => acc
  | fuel + 1, n, acc =>
      if n < 10 then digCh n :: acc
      else natCharsAux fuel (n / 10) (digCh (n % 10) :: acc)

/-- Decimal rendering of a natural number. -/
def natChars (n : Nat) : List Char := natCharsAux (n + 1) n []

/-- Decimal rendering of an integer (Python `str` of an int, also the
`json.dumps` rendering of an int). -/
def intChars : Int → List Char
  | Int.ofNat n => natChars n
  | Int.negSucc n => '-' :: natChars (n + 1)

/-- Escape of one character inside a JSON string literal as performed by
`json.dumps(..., ensure_ascii=False)`: the two mandatory escapes, the
C-style shorthands for the common control characters, `\u00XX` for the
remaining control characters, and every other character verbatim. -/
def escChar (c : Char) : List Char :=
  if c = '"' then ['\\', '"']
  else if c = '\\' then ['\\', '\\']
  else if c = '\n' then ['\\', 'n']
  else if c = '\r' then ['\\', 'r']
  else if c = '\t' then ['\\', 't']
  else if c.toNat = 8 then ['\\', 'b']
  else if c.toNat = 12 then ['\\', 'f']
  else if c.toNat < 32 then ['\\', 'u', '0', '0', hexCh (c.toNat / 16), hexCh (c.toNat % 16)]
  else [c]

/-- JSON string literal rendering (`json.dumps` of a Python str). -/
def strChars (s : String) : List Char :=
  '"' :: (s.data.map escChar).flatten ++ ['"']

/-- Insertion of one key-value pair into a key-sorted pair list, keeping
equal keys stable (models one step of the sort performed by
`json.dumps(..., sort_keys=True)`; Python compares strings by code point,
as Lean's `String` order does). -/
def insKV (p : String × Json) : List (String × Json) → List (String × Json)
  | [] => [p]
  | q :: qs => if p.1 ≤ q.1 then p :: q :: qs else q :: insKV p qs

/-- Insertion sort of the key-value pairs of one JSON object level by key. -/
def sortKVs : List (String × Json) → List (String × Json)
  | [] => []
  | p :: ps => insKV p (sortKVs ps)

mutual
/-- Recursive key sorting of every object level of a JSON value.
`json.dumps(..., sort_keys=True)` sorts the items of each object while
serialising; sorting first and then serialising without sorting is the same
function, and is how the model is factored. -/
def sortJson : Json → Json
  | Json.null => Json.null
  | Json.bool b => Json.bool b
  | Json.num n => Json.num n
  | Json.str s => Json.str s
  | Json.arr xs => Json.arr (sortElems xs)
  | Json.obj kvs => Json.obj (sortKVs (sortFields kvs))

/-- Element-wise recursive key sorting of a JSON array. -/
def sortElems : List Json → List Json
  | [] => []
  | x :: xs => sortJson x :: sortElems xs

/-- Value-wise recursive key sorting below one object level. -/
def sortFields : List (String × Json) → List (String × Json)
  | [] => []
  | (k, v) :: kvs => (k, sortJson v) :: sortFields kvs
end

mutual
/-- Character-level rendering of a JSON value as performed by
`json.dumps(v, ensure_ascii=False)` with the default separators
(`", "` between items, `": "` after a key). -/
def renderChars : Json → List Char
  | Json.null => ['n', 'u', 'l', 'l']
  | Json.bool true => ['t', 'r', 'u', 'e']
  | Json.bool false => ['f', 'a', 'l', 's', 'e']
  | Json.num n => intChars n
  | Json.str s => strChars s
  | Json.arr [] => ['[', ']']
  | Json.arr (x :: xs) => '[' :: (renderChars x ++ renderElems xs ++ [']'])
  | Json.obj [] => ['{', '}']
  | Json.obj ((k, v) :: kvs) =>
      '{' :: (strChars k ++ ':' :: ' ' :: renderChars v ++ renderFields kvs ++ ['}'])

/-- Comma-separated rendering of the tail elements of a JSON array. -/
def renderElems : List Json → List Char
  | [] => []
  | x :: xs => ',' :: ' ' :: renderChars x ++ renderElems xs

/-- Comma-separated rendering of the tail pairs of a JSON object. -/
def renderFields : List (String × Json) → List Char
  | [] => []
  | (k, v) :: kvs => ',' :: ' ' :: strChars k ++ ':' :: ' ' :: renderChars v ++ renderFields kvs
end

/-- Models `json.dumps(v, ensure_ascii=False)`. -/
def dumps (v : Json) : String := String.mk (renderChars v)

/-- Models `json.dumps(v, ensure_ascii=False, sort_keys=True)`. -/
def dumpsSorted (v : Json) : String := String.mk (renderChars (sortJson v))

/-- Tests the `isinstance(payload, (dict, list))` guard of main. -/
def isContainer : Json → Bool
  | Json.arr _ => true
  | Json.obj _ => true
  | _ => false

/-- Embeds the masking step shared by both pipelines
(`mask_value(raw) if is_json else raw`, lines 232-233 and 281-282 of
src/extract_http_log.py). When the flag is true the decoded value is always
`Sum.inl`; the `Sum.inr` case is kept for totality and returns the payload
unchanged, as `mask_value` does on a plain string. -/
def maskedPayload (jp : String → Option Json) (u8 : List Nat → String)
    (body : String) : Json ⊕ String :=
  match parse_body_to_json jp u8 body with
  | (Sum.inl v, true) => Sum.inl (mask_value v)
  | (p, _) => p

/-- Embeds the body rendering shared by both pipelines (lines 234-237 and
335-338 of src/extract_http_log.py): containers are dumped with sorted keys,
any other decoded JSON value is dumped plainly, and raw text is dumped as a
JSON string literal. -/
def renderPayload : Json ⊕ String → String
  | Sum.inl v => if isContainer v then dumpsSorted v else dumps v
  | Sum.inr s => dumps (Json.str s)

/-- Column access on a split input record: `parts[i]`, defaulting to the
empty string (only used at indices below the checked tuple length). -/
def fld (parts : List String) (i : Nat) : String := parts.getD i ""

/-- Embeds the Response Record enqueued by main (lines 240-244 of
src/extract_http_log.py). `status` keeps the raw status column: the source
stores `rstatus or None` and later renders `status or "-"`, which collapses
to "emptiness of the raw column" and is modelled that way. `size` is the
resolved byte size (an int, never `None` after resolution). -/
structure RRec where
  status : String
  size : Nat
  body_json : String
deriving DecidableEq

/-- The Stream Correlator: the per-session map `responses_by_stream`,
modelled as a total function with `[]` for absent keys. The source never
distinguishes an absent key from a present key holding an empty deque
(both fail the `sidx in map and map[sidx]` pairing guard), so the function
model is observationally faithful. -/
def SMap : Type := Int → List RRec

/-- The empty Stream Correlator. -/
def emptySMap : SMap := fun _ => []

/-- Builds the Response Record for one valid response tuple's status,
content-length and body columns (lines 211-244 of src/extract_http_log.py). -/
def res_record (jp : String → Option Json) (u8 : List Nat → String)
    (rstatus rclen rbody : String) : RRec :=
  { status := rstatus
  , size := resolve_size rclen rbody
  , body_json := renderPayload (maskedPayload jp u8 rbody) }

/-- Embeds one iteration of the response preload loop of main (lines
201-244): tuples with fewer than 6 columns are skipped, a session id that
`int` rejects skips the tuple, otherwise the Response Record is appended to
the tail of that session's queue (`setdefault` + `append`). Columns:
0 time, 1 tcp.stream, 2 status, 3 content-length, 4 content-type, 5 body. -/
def ingestOne (jp : String → Option Json) (u8 : List Nat → String)
    (m : SMap) (parts : List String) : SMap :=
  if parts.length < 6 then m
  else
    match parsePyInt (fld parts 1) with
    | none => m
    | some sidx =>
        let r := res_record jp u8 (fld parts 2) (fld parts 3) (fld parts 5)
        fun k => if k = sidx then m k ++ [r] else m k

/-- The whole response preload phase starting from a given correlator
state. -/
def ingestFrom (jp : String → Option Json) (u8 : List Nat → String)
    (m : SMap) (ts : List (List String)) : SMap :=
  ts.foldl (ingestOne jp u8) m

/-- The whole response preload phase of main: the Stream Correlator built
from the response tuple stream. -/
def ingest (jp : String → Option Json) (u8 : List Nat → String)
    (ts : List (List String)) : SMap :=
  ingestFrom jp u8 emptySMap ts

/-- Embeds the request-side session id parse (lines 307-310 of
src/extract_http_log.py): `int(stream) if stream else None`, with any
exception mapped to `None`. -/
def reqSid (stream : String) : Option Int :=
  if stream = "" then none else parsePyInt stream

/-- Embeds the timestamp rendering of main (lines 285-292 and 322-326):
an empty timestamp column renders as the `[-]` placeholder; a non-empty one
goes through `float` / `fromtimestamp` / `strftime`, modelled by `tf`, whose
`none` result models the uncaught exception those calls can raise (for
example `float("x")`). -/
def timeOpt (tf : String → Option String) (ts : String) : Option String :=
  if ts = "" then some ("[-]") else tf ts

/-- Embeds the pairing step of main (lines 303-314): no session id means no
match; otherwise the head of that session's pending queue, if any, is
popped and returned together with the updated correlator. -/
def pairPop (m : SMap) (sidx : Option Int) : Option RRec × SMap :=
  match sidx with
  | none => (none, m)
  | some s =>
      match m s with
      | [] => (none, m)
      | r :: rest => (some r, fun k => if k = s then rest else m k)

/-- One emitted Log Line, as the tuple of the local variables main
interpolates into `line_out` (lines 316-362 of src/extract_http_log.py).
The constant `ident_l`/`authuser_u` columns are folded into the final
rendering. -/
structure LogLine where
  host_h : String
  time_t : String
  request_line : String
  status_s : String
  bytes_b : String
  referer_q : String
  ua_q : String
  src_ip : String
  src_port_str : String
  dst_ip : String
  dst_port_str : String
  req_body_json : String
  res_body_json : String
deriving DecidableEq

/-- The final f-string of main (lines 355-362): the rendered Log Line. -/
def line_out (l : LogLine) : String :=
  l.host_h ++ " - - " ++ l.time_t ++ " \"" ++ l.request_line ++ "\" " ++
  l.status_s ++ " " ++ l.bytes_b ++ " \"" ++ l.referer_q ++ "\" \"" ++ l.ua_q ++ "\" " ++
  l.src_ip ++ ":" ++ l.src_port_str ++ " " ++ l.dst_ip ++ ":" ++ l.dst_port_str ++ " " ++
  l.req_body_json ++ " " ++ l.res_body_json

/-- Builds the Log Line of one valid request tuple from its 15 columns, the
already-rendered time field and the pairing outcome (lines 316-362 of
src/extract_http_log.py). Column layout: 0 time, 1 tcp.stream, 2 src ip,
3 src port, 4 dst ip, 5 dst port, 6 method, 7 request-path, 8 full URL,
9 host, 10 version, 11 user-agent, 12 referer, 13 content-type, 14 body. -/
def buildLine (jp : String → Option Json) (u8 : List Nat → String)
    (parts : List String) (time_t : String) (rinfo : Option RRec) : LogLine :=
  let src := fld parts 2
  let uri := fld parts 7
  let req_target := if uri = "" then "/" else uri
  let http_version := if fld parts 10 = "" then "-" else fld parts 10
  { host_h := if src = "" then "-" else src
  , time_t := time_t
  , request_line :=
      (if fld parts 6 = "" then "-" else fld parts 6) ++ " " ++ req_target ++ " " ++ http_version
  , status_s :=
      match rinfo with
      | some r => if r.status = "" then "-" else r.status
      | none => "-"
  , bytes_b :=
      match rinfo with
      | some r => toString r.size
      | none => "-"
  , referer_q := if fld parts 12 = "" then "-" else fld parts 12
  , ua_q := if fld parts 11 = "" then "-" else fld parts 11
  , src_ip := if src = "" then "-" else src
  , src_port_str := if fld parts 3 = "" then "-" else fld parts 3
  , dst_ip := if fld parts 4 = "" then "-" else fld parts 4
  , dst_port_str := if fld parts 5 = "" then "-" else fld parts 5
  , req_body_json := renderPayload (maskedPayload jp u8 (fld parts 14))
  , res_body_json :=
      match rinfo with
      | some r => r.body_json
      | none => "null" }

/-- Embeds one iteration of the request loop of main (lines 258-363).
Result `none` models an uncaught exception (the timestamp conversion is the
only raising step, and it runs before the pairing pop, so the correlator is
untouched); `some (m, none)` models a skipped short tuple; `some (m', some
l)` an emitted line. The `url` let-binding reproduces the URL resolution of
lines 294-301, which the rest of the source never reads. -/
def processReq (jp : String → Option Json) (u8 : List Nat → String)
    (tf : String → Option String) (m : SMap) (parts : List String) :
    Option (SMap × Option LogLine) :=
  if parts.length < 15 then some (m, none)
  else
    let _url : Option String :=
      if fld parts 8 ≠ "" then some (fld parts 8)
      else if fld parts 9 ≠ "" ∧ fld parts 7 ≠ "" then
        some ("http://" ++ fld parts 9 ++ fld parts 7)
      else if fld parts 7 = "" then none else some (fld parts 7)
    match timeOpt tf (fld parts 0) with
    | none => none
    | some time_t =>
        some ((pairPop m (reqSid (fld parts 1))).2,
              some (buildLine jp u8 parts time_t (pairPop m (reqSid (fld parts 1))).1))

/-- The request phase of main: folds processReq over the request tuple
stream, collecting emitted Log Lines in order; an exception aborts the loop,
keeping the lines already written. -/
def processReqs (jp : String → Option Json) (u8 : List Nat → String)
    (tf : String → Option String) : SMap → List (List String) → SMap × List LogLine
  | m, [] => (m, [])
  | m, t :: rest =>
      match processReq jp u8 tf m t with
      | none => (m, [])
      | some (m', none) => processReqs jp u8 tf m' rest
      | some (m', some l) =>
          ((processReqs jp u8 tf m' rest).1, l :: (processReqs jp u8 tf m' rest).2)

/-- The whole program on a pair of tuple streams: preload responses, then
format requests; the emitted Log Lines in order. -/
def emittedLines (jp : String → Option Json) (u8 : List Nat → String)
    (tf : String → Option String)
    (resStream reqStream : List (List String)) : List LogLine :=
  (processReqs jp u8 tf (ingest jp u8 resStream) reqStream).2

/-! Helper lemmas shared by the claim theorems. -/

/-- Masking a dictionary is the described per-pair map. -/
theorem maskFields_eq_map (kvs : List (String × Json)) :
    maskFields kvs =
      kvs.map (fun kv =>
        (kv.1, if lowerStr kv.1 ∈ MASK_KEYS then Json.str ("******") else mask_value kv.2)) := by
  induction kvs with
  | nil => rfl
  | cons kv kvs ih => cases kv; simp [maskFields, ih]

/-- Masking a list is the element-wise map. -/
theorem maskElems_eq_map (xs : List Json) : maskElems xs = xs.map mask_value := by
  induction xs with
  | nil => rfl
  | cons x xs ih => simp [maskElems, ih]

/-- Decimal digit characters are never a newline. -/
theorem digCh_ne_nl (n : Nat) : digCh n ≠ '\n' := by
  unfold digCh; split <;> decide

/-- Hexadecimal digit characters are never a newline. -/
theorem hexCh_ne_nl (n : Nat) : hexCh n ≠ '\n' := by
  unfold hexCh; split <;> decide

/-- The accumulator-style decimal renderer introduces no newline. -/
theorem natCharsAux_nl (fuel : Nat) :
    ∀ (n : Nat) (acc : List Char), '\n' ∉ acc → '\n' ∉ natCharsAux fuel n acc := by
  induction fuel with
  | zero => intro n acc h; exact h
  | succ fuel ih =>
      intro n acc h
      unfold natCharsAux
      split
      · intro hmem
        rcases List.mem_cons.mp hmem with h1 | h1
        · exact digCh_ne_nl n h1.symm
        · exact h h1
      · apply ih
        intro hmem
        rcases List.mem_cons.mp hmem with h1 | h1
        · exact digCh_ne_nl (n % 10) h1.symm
        · exact h h1

/-- Rendered naturals contain no newline. -/
theorem natChars_nl (n : Nat) : '\n' ∉ natChars n :=
  natCharsAux_nl (n + 1) n [] (by simp)

/-- Rendered integers contain no newline. -/
theorem intChars_nl (i : Int) : '\n' ∉ intChars i := by
  cases i with
  | ofNat n => exact natChars_nl n
  | negSucc n =>
      intro hmem
      rcases List.mem_cons.mp hmem with h1 | h1
      · exact absurd h1 (by decide)
      · exact natChars_nl (n + 1) h1

/-- Escaped characters contain no newline (the newline itself escapes to
backslash-n). -/
theorem escChar_nl (c : Char) : '\n' ∉ escChar c := by
  unfold escChar
  split
  · decide
  · split
    · decide
    · split
      · decide
      · split
        · decide
        · split
          · decide
          · split
            · decide
            · split
              · decide
              · split
                · intro hmem
                  simp only [List.mem_cons, List.not_mem_nil, or_false] at hmem
                  rcases hmem with h1 | h1 | h1 | h1 | h1 | h1 <;>
                    first
                      | exact absurd h1 (by decide)
                      | exact hexCh_ne_nl _ h1.symm
                · rename_i hq hbs hnl hr ht hb hf hlt
                  intro hmem
                  simp only [List.mem_singleton] at hmem
                  exact hnl hmem.symm

/-- JSON string literals render without a newline. -/
theorem strChars_nl (s : String) : '\n' ∉ strChars s := by
  intro hmem
  unfold strChars at hmem
  rcases List.mem_cons.mp hmem with h1 | h1
  · exact absurd h1 (by decide)
  · rcases List.mem_append.mp h1 with h2 | h2
    · rcases List.mem_flatten.mp h2 with ⟨l, hl, hcl⟩
      rcases List.mem_map.mp hl with ⟨c, _, rfl⟩
      exact escChar_nl c hcl
    · exact absurd (List.mem_singleton.mp h2) (by decide)

mutual
/-- The rendering of any JSON value contains no newline. -/
theorem renderChars_nl : ∀ v : Json, '\n' ∉ renderChars v
  | Json.null => by decide
  | Json.bool true => by decide
  | Json.bool false => by decide
  | Json.num n => intChars_nl n
  | Json.str s => strChars_nl s
  | Json.arr [] => by decide
  | Json.arr (x :: xs) => by
      intro hmem
      simp only [renderChars] at hmem
      repeat
        first
        | exact renderChars_nl x hmem
        | exact renderElems_nl xs hmem
        | exact absurd hmem (by decide)
        | (rcases List.mem_append.mp hmem with hmem | hmem)
        | (rcases List.mem_cons.mp hmem with hmem | hmem)
  | Json.obj [] => by decide
  | Json.obj ((k, v) :: kvs) => by
      intro hmem
      simp only [renderChars] at hmem
      repeat
        first
        | exact strChars_nl k hmem
        | exact renderChars_nl v hmem
        | exact renderFields_nl kvs hmem
        | exact absurd hmem (by decide)
        | (rcases List.mem_append.mp hmem with hmem | hmem)
        | (rcases List.mem_cons.mp hmem with hmem | hmem)

/-- Array tails render without a newline. -/
theorem renderElems_nl : ∀ xs : List Json, '\n' ∉ renderElems xs
  | [] => by decide
  | x :: xs => by
      intro hmem
      simp only [renderElems] at hmem
      repeat
        first
        | exact renderChars_nl x hmem
        | exact renderElems_nl xs hmem
        | exact absurd hmem (by decide)
        | (rcases List.mem_append.mp hmem with hmem | hmem)
        | (rcases List.mem_cons.mp hmem with hmem | hmem)

/-- Object tails render without a newline. -/
theorem renderFields_nl : ∀ kvs : List (String × Json), '\n' ∉ renderFields kvs
  | [] => by decide
  | (k, v) :: kvs => by
      intro hmem
      simp only [renderFields] at hmem
      repeat
        first
        | exact strChars_nl k hmem
        | exact renderChars_nl v hmem
        | exact renderFields_nl kvs hmem
        | exact absurd hmem (by decide)
        | (rcases List.mem_append.mp hmem with hmem | hmem)
        | (rcases List.mem_cons.mp hmem with hmem | hmem)
end

/-- Every rendered body is the dump of some JSON value. -/
theorem renderPayload_exists (p : Json ⊕ String) : ∃ v : Json, renderPayload p = dumps v := by
  cases p with
  | inl v =>
      by_cases h : isContainer v = true
      · exact ⟨sortJson v, by simp [renderPayload, h, dumpsSorted, dumps]⟩
      · exact ⟨v, by simp [renderPayload, h]⟩
  | inr s => exact ⟨Json.str s, rfl⟩

/-- Ingesting one response tuple appends (at the tail) exactly what the
tuple contributes on its own. -/
theorem ingestOne_app (jp : String → Option Json) (u8 : List Nat → String)
    (m : SMap) (t : List String) (S : Int) :
    ingestOne jp u8 m t S = m S ++ ingestOne jp u8 emptySMap t S := by
  unfold ingestOne
  split
  · simp [emptySMap]
  · cases hp : parsePyInt (fld t 1) with
    | none => simp [emptySMap]
    | some sidx =>
        simp only [emptySMap]
        split <;> simp

/-- The response preload phase only appends: the queue of any session id
after ingestion is its previous contents followed by the contributions of
the ingested tuples in input order. -/
theorem ingestFrom_app (jp : String → Option Json) (u8 : List Nat → String)
    (ts : List (List String)) :
    ∀ (m : SMap) (S : Int), ingestFrom jp u8 m ts S = m S ++ ingest jp u8 ts S := by
  induction ts with
  | nil => intro m S; simp [ingestFrom, ingest, emptySMap]
  | cons t ts ih =>
      intro m S
      have h1 : ingestFrom jp u8 m (t :: ts) S = ingestFrom jp u8 (ingestOne jp u8 m t) ts S := rfl
      have h2 : ingest jp u8 (t :: ts) S = ingestFrom jp u8 (ingestOne jp u8 emptySMap t) ts S := rfl
      rw [h1, h2, ih (ingestOne jp u8 m t) S, ih (ingestOne jp u8 emptySMap t) S,
        ingestOne_app jp u8 m t S, List.append_assoc]

/-- The pairing step leaves every queue a suffix (drop) of what it was. -/
theorem pairPop_drop (m : SMap) (sid : Option Int) (S : Int) :
    ∃ j, (pairPop m sid).2 S = (m S).drop j := by
  cases sid with
  | none => exact ⟨0, rfl⟩
  | some s =>
      unfold pairPop
      cases hm : m s with
      | nil => exact ⟨0, by simp [hm]⟩
      | cons r rest =>
          by_cases hS : S = s
          · subst hS
            exact ⟨1, by simp [hm]⟩
          · exact ⟨0, by simp [hm, hS]⟩

/-- Characterization of processReq on a valid tuple whose timestamp
rendering succeeds. -/
theorem processReq_eq (jp : String → Option Json) (u8 : List Nat → String)
    (tf : String → Option String) (m : SMap) (parts : List String)
    (h : ¬ parts.length < 15) (t : String) (ht : timeOpt tf (fld parts 0) = some t) :
    processReq jp u8 tf m parts =
      some ((pairPop m (reqSid (fld parts 1))).2,
            some (buildLine jp u8 parts t (pairPop m (reqSid (fld parts 1))).1)) := by
  unfold processReq
  rw [if_neg h, ht]

/-- Whatever processReq returns, the correlator only lost a prefix of each
queue. -/
theorem processReq_drop (jp : String → Option Json) (u8 : List Nat → String)
    (tf : String → Option String) (m : SMap) (parts : List String)
    (m' : SMap) (o : Option LogLine)
    (h : processReq jp u8 tf m parts = some (m', o)) (S : Int) :
    ∃ j, m' S = (m S).drop j := by
  unfold processReq at h
  split at h
  · exact ⟨0, by cases h; rfl⟩
  · rcases hto : timeOpt tf (fld parts 0) with _ | t
    · rw [hto] at h; cases h
    · rw [hto] at h
      have hm : m' = (pairPop m (reqSid (fld parts 1))).2 := by
        cases h; rfl
      rw [hm]
      exact pairPop_drop m (reqSid (fld parts 1)) S

/-- Over a whole request stream, the final correlator holds, for every
session id, a suffix of the initial queue: every response is consumed at
most once and strictly from the front. -/
theorem processReqs_drop (jp : String → Option Json) (u8 : List Nat → String)
    (tf : String → Option String) (ts : List (List String)) :
    ∀ (m : SMap) (S : Int), ∃ k, (processReqs jp u8 tf m ts).1 S = (m S).drop k := by
  induction ts with
  | nil => intro m S; exact ⟨0, rfl⟩
  | cons t ts ih =>
      intro m S
      rcases hp : processReq jp u8 tf m t with _ | ⟨m', o⟩
      · exact ⟨0, by simp [processReqs, hp]⟩
      · rcases processReq_drop jp u8 tf m t m' o hp S with ⟨j, hj⟩
        rcases ih m' S with ⟨k, hk⟩
        refine ⟨j + k, ?_⟩
        have : (processReqs jp u8 tf m (t :: ts)).1 = (processReqs jp u8 tf m' ts).1 := by
          cases o <;> simp [processReqs, hp]
        rw [this, hk, hj, List.drop_drop]

/-- Unfolding step for processReqs when the head tuple emits a line. -/
theorem processReqs_cons_line (jp : String → Option Json) (u8 : List Nat → String)
    (tf : String → Option String) (m m' : SMap) (t : List String)
    (rest : List (List String)) (l : LogLine)
    (h : processReq jp u8 tf m t = some (m', some l)) :
    processReqs jp u8 tf m (t :: rest) =
      ((processReqs jp u8 tf m' rest).1, l :: (processReqs jp u8 tf m' rest).2) := by
  simp [processReqs, h]

/-- Inversion for processReq when it emits a line: the tuple was long
enough, the timestamp rendered, the correlator advanced by the pairing pop,
and the line is buildLine of the tuple. -/
theorem processReq_some_line (jp : String → Option Json) (u8 : List Nat → String)
    (tf : String → Option String) (m : SMap) (parts : List String) (m' : SMap) (l : LogLine)
    (h : processReq jp u8 tf m parts = some (m', some l)) :
    ¬ parts.length < 15 ∧
    ∃ t, timeOpt tf (fld parts 0) = some t ∧
      m' = (pairPop m (reqSid (fld parts 1))).2 ∧
      l = buildLine jp u8 parts t (pairPop m (reqSid (fld parts 1))).1 := by
  unfold processReq at h
  split at h
  · simp at h
  · rename_i hge
    rcases hto : timeOpt tf (fld parts 0) with _ | t
    · rw [hto] at h; cases h
    · rw [hto] at h
      simp only [Option.some.injEq, Prod.mk.injEq] at h
      exact ⟨hge, t, rfl, h.1.symm, h.2.symm⟩

/-- processReq crashes exactly when the timestamp rendering of a
long-enough tuple raises. -/
theorem processReq_time_none (jp : String → Option Json) (u8 : List Nat → String)
    (tf : String → Option String) (m : SMap) (parts : List String)
    (h15 : ¬ parts.length < 15) (hto : timeOpt tf (fld parts 0) = none) :
    processReq jp u8 tf m parts = none := by
  unfold processReq
  rw [if_neg h15, hto]

/-- Tests whether a JSON value is a string, object or array (the top-level
kinds the specification allows for the request-body field). -/
def isStrObjArr : Json → Bool
  | Json.str _ => true
  | Json.arr _ => true
  | Json.obj _ => true
  | _ => false

/-- No string, object or array renders to the bare text of a number: their
dumps start with a quote, bracket or brace. -/
theorem dumps_str_obj_arr_ne_three (v : Json) (hk : isStrObjArr v = true) :
    dumps v ≠ ("3") := by
  intro h
  have hd : renderChars v = ['3'] := congrArg String.data h
  cases v with
  | null => simp [isStrObjArr] at hk
  | bool b => simp [isStrObjArr] at hk
  | num n => simp [isStrObjArr] at hk
  | str s => simp [renderChars, strChars] at hd
  | arr xs =>
      cases xs with
      | nil => exact absurd hd (by decide)
      | cons x xs => simp [renderChars] at hd
  | obj kvs =>
      cases kvs with
      | nil => exact absurd hd (by decide)
      | cons kv kvs => cases kv; simp [renderChars] at hd

/-- Pairing against a session whose queue holds a head pops exactly that
head. -/
theorem pairPop_cons (m : SMap) (S : Int) (r : RRec) (rest : List RRec)
    (h : m S = r :: rest) :
    pairPop m (some S) = (some r, fun k => if k = S then rest else m k) := by
  have hred : pairPop m (some S) =
      (match m S with
        | [] => (none, m)
        | r :: rest => (some r, fun k => if k = S then rest else m k)) := rfl
  rw [hred, h]

/-- Pairing against a session with an empty queue matches nothing and keeps
the correlator unchanged. -/
theorem pairPop_empty (m : SMap) (S : Int) (h : m S = []) :
    pairPop m (some S) = (none, m) := by
  have hred : pairPop m (some S) =
      (match m S with
        | [] => (none, m)
        | r :: rest => (some r, fun k => if k = S then rest else m k)) := rfl
  rw [hred, h]

/-! The claim theorems. -/

/-- C3: masking recursively walks objects, replaces the value of any key
whose case-insensitive form is in the fixed sensitive-key set with the fixed
marker, walks arrays element-wise, and leaves scalars unchanged; the example
object with a password key masks as specified; and masking is applied only
when the body was classified as JSON, so non-JSON text bodies pass through
unmasked. -/
theorem C3_masking :
    (mask_value (Json.obj [("password", Json.str ("x")), ("user", Json.str ("bob"))]) =
      Json.obj [("password", Json.str ("******")), ("user", Json.str ("bob"))])
    ∧ (∀ kvs : List (String × Json),
        mask_value (Json.obj kvs) =
          Json.obj (kvs.map (fun kv =>
            (kv.1, if lowerStr kv.1 ∈ MASK_KEYS then Json.str ("******") else mask_value kv.2))))
    ∧ (∀ xs : List Json, mask_value (Json.arr xs) = Json.arr (xs.map mask_value))
    ∧ (mask_value Json.null = Json.null)
    ∧ (∀ b, mask_value (Json.bool b) = Json.bool b)
    ∧ (∀ n, mask_value (Json.num n) = Json.num n)
    ∧ (∀ s, mask_value (Json.str s) = Json.str s)
    ∧ (∀ (jp : String → Option Json) (u8 : List Nat → String) (body : String),
        (parse_body_to_json jp u8 body).2 = false →
        maskedPayload jp u8 body = (parse_body_to_json jp u8 body).1) := by
  have hpw : lowerStr ("password") ∈ MASK_KEYS := by decide
  have hus : ¬ (lowerStr ("user") ∈ MASK_KEYS) := by decide
  refine ⟨by simp [mask_value, maskFields, hpw, hus], ?_, ?_,
    by simp [mask_value], fun b => by simp [mask_value], fun n => by simp [mask_value],
    fun s => by simp [mask_value], ?_⟩
  · intro kvs
    rw [show mask_value (Json.obj kvs) = Json.obj (maskFields kvs) from rfl,
      maskFields_eq_map]
  · intro xs
    rw [show mask_value (Json.arr xs) = Json.arr (maskElems xs) from rfl,
      maskElems_eq_map]
  · intro jp u8 body h
    rcases hp : parse_body_to_json jp u8 body with ⟨p, b⟩
    rw [hp] at h
    simp only at h
    subst h
    unfold maskedPayload
    rw [hp]
    cases p <;> rfl

/-- C4: the Body Normalizer applies exactly these steps in order, first
success winning: direct JSON parse; hex decode (for even-length hex-digit
strings) followed by JSON parse of the decoded text; decoded-but-not-JSON
text with the false flag when the decode changed the input; otherwise the
raw string unchanged with the false flag. -/
theorem C4_body_normalizer (jp : String → Option Json) (u8 : List Nat → String)
    (body : String) :
    (∀ v, jp body = some v → parse_body_to_json jp u8 body = (Sum.inl v, true))
    ∧ (jp body = none → isEvenHex body = true →
        ∀ v, jp (u8 (hexBytes body.data)) = some v →
          parse_body_to_json jp u8 body = (Sum.inl v, true))
    ∧ (jp body = none → isEvenHex body = true → u8 (hexBytes body.data) ≠ body →
        jp (u8 (hexBytes body.data)) = none →
          parse_body_to_json jp u8 body = (Sum.inr (u8 (hexBytes body.data)), false))
    ∧ (jp body = none → isEvenHex body = false →
          parse_body_to_json jp u8 body = (Sum.inr body, false))
    ∧ (jp body = none → isEvenHex body = true → u8 (hexBytes body.data) = body →
          parse_body_to_json jp u8 body = (Sum.inr body, false)) := by
  refine ⟨?_, ?_, ?_, ?_, ?_⟩
  · intro v hv
    simp [parse_body_to_json, hv]
  · intro h0 heven v hv
    by_cases hne : u8 (hexBytes body.data) = body
    · rw [hne] at hv
      rw [hv] at h0
      cases h0
    · simp [parse_body_to_json, try_decode_hex, h0, heven, hne, hv]
  · intro h0 heven hne hv
    simp [parse_body_to_json, try_decode_hex, h0, heven, hne, hv]
  · intro h0 heven
    simp [parse_body_to_json, try_decode_hex, h0, heven]
  · intro h0 heven heq
    simp [parse_body_to_json, try_decode_hex, h0, heven, heq]

/-- C5: the resolved response byte size is the declared content-length when
that column is a (non-empty) decimal digit string — the source's
`isdigit` reading of "parses as a non-negative integer" — else half the
character count of an even-length hex-digit body, else the UTF-8 byte
length of the body; the resolution is a total function (never fails), the
record built for a valid tuple carries exactly this size, and in particular
the odd-length non-hex body "abc" with no content-length resolves to 3. -/
theorem C5_size_resolution :
    (∀ rclen rbody : String, pyIsDigitStr rclen = true →
        resolve_size rclen rbody = digitsVal rclen.data)
    ∧ (∀ rclen rbody : String, pyIsDigitStr rclen = false → isEvenHex rbody = true →
        resolve_size rclen rbody = rbody.length / 2)
    ∧ (∀ rclen rbody : String, pyIsDigitStr rclen = false → isEvenHex rbody = false →
        resolve_size rclen rbody = rbody.utf8ByteSize)
    ∧ resolve_size ("") ("abc") = 3
    ∧ (∀ (jp : String → Option Json) (u8 : List Nat → String) (rstatus rclen rbody : String),
        (res_record jp u8 rstatus rclen rbody).size = resolve_size rclen rbody) := by
  refine ⟨?_, ?_, ?_, by decide, fun jp u8 rstatus rclen rbody => rfl⟩
  · intro rclen rbody h
    simp [resolve_size, h]
  · intro rclen rbody h heven
    simp [resolve_size, h, heven]
  · intro rclen rbody h heven
    simp [resolve_size, h, heven]

/-- C8: the rendered request line is method, request-target and HTTP
version in order, each defaulting to its placeholder ("-", "/", "-") when
the corresponding column is empty. -/
theorem C8_request_line (jp : String → Option Json) (u8 : List Nat → String)
    (tf : String → Option String) (m : SMap) (parts : List String) (m' : SMap) (l : LogLine)
    (h : processReq jp u8 tf m parts = some (m', some l)) :
    l.request_line =
      (if fld parts 6 = "" then "-" else fld parts 6) ++ " " ++
      (if fld parts 7 = "" then "/" else fld parts 7) ++ " " ++
      (if fld parts 10 = "" then "-" else fld parts 10) := by
  obtain ⟨h15, t, ht, hm, hl⟩ := processReq_some_line jp u8 tf m parts m' l h
  subst hl
  rfl

/-- C10: a response tuple with at least 6 columns whose session-identifier
column does not parse as an integer produces no Response Record at all
(the correlator is unchanged), whereas a request tuple with at least 15
columns whose session identifier does not parse still produces a full log
line, treated as unmatched. -/
theorem C10_sid_parse_asymmetry :
    (∀ (jp : String → Option Json) (u8 : List Nat → String) (m : SMap) (parts : List String),
        ¬ parts.length < 6 → parsePyInt (fld parts 1) = none →
        ingestOne jp u8 m parts = m)
    ∧ (∀ (jp : String → Option Json) (u8 : List Nat → String) (tf : String → Option String)
        (m : SMap) (parts : List String),
        ¬ parts.length < 15 → reqSid (fld parts 1) = none →
        ∀ t, timeOpt tf (fld parts 0) = some t →
          processReq jp u8 tf m parts = some (m, some (buildLine jp u8 parts t none)) ∧
          (buildLine jp u8 parts t none).status_s = "-" ∧
          (buildLine jp u8 parts t none).bytes_b = "-" ∧
          (buildLine jp u8 parts t none).res_body_json = "null") := by
  constructor
  · intro jp u8 m parts h6 hsid
    unfold ingestOne
    rw [if_neg h6, hsid]
  · intro jp u8 tf m parts h15 hsid t ht
    refine ⟨?_, rfl, rfl, rfl⟩
    rw [processReq_eq jp u8 tf m parts h15 t ht, hsid]
    rfl

/-- C6: a valid request tuple whose session identifier has no queued
(remaining) response — either no parseable id or an empty queue — yields a
line with status placeholder "-", bytes placeholder "-" and the literal
token null as response body; when a response is matched, the response-body
field is taken verbatim from the matched record, and every record built by
the Response Ingestor carries a single-line JSON text there. -/
theorem C6_unmatched_and_matched_fields :
    (∀ (jp : String → Option Json) (u8 : List Nat → String) (tf : String → Option String)
        (m : SMap) (parts : List String) (m' : SMap) (l : LogLine),
        processReq jp u8 tf m parts = some (m', some l) →
        (reqSid (fld parts 1) = none ∨ ∃ S, reqSid (fld parts 1) = some S ∧ m S = []) →
        l.status_s = "-" ∧ l.bytes_b = "-" ∧ l.res_body_json = "null")
    ∧ (∀ (jp : String → Option Json) (u8 : List Nat → String) (tf : String → Option String)
        (m : SMap) (parts : List String) (m' : SMap) (l : LogLine) (S : Int)
        (r : RRec) (rest : List RRec),
        processReq jp u8 tf m parts = some (m', some l) →
        reqSid (fld parts 1) = some S → m S = r :: rest →
        l.res_body_json = r.body_json ∧
        l.status_s = (if r.status = "" then "-" else r.status) ∧
        l.bytes_b = toString r.size)
    ∧ (∀ (jp : String → Option Json) (u8 : List Nat → String) (rstatus rclen rbody : String),
        ∃ v : Json, (res_record jp u8 rstatus rclen rbody).body_json = dumps v ∧
          '\n' ∉ (dumps v).data) := by
  refine ⟨?_, ?_, ?_⟩
  · intro jp u8 tf m parts m' l h hd
    obtain ⟨h15, t, ht, hm, hl⟩ := processReq_some_line jp u8 tf m parts m' l h
    subst hl
    rcases hd with hnone | ⟨S, hS, hmS⟩
    · rw [hnone]
      exact ⟨rfl, rfl, rfl⟩
    · rw [hS, pairPop_empty m S hmS]
      exact ⟨rfl, rfl, rfl⟩
  · intro jp u8 tf m parts m' l S r rest h hS hmS
    obtain ⟨h15, t, ht, hm, hl⟩ := processReq_some_line jp u8 tf m parts m' l h
    subst hl
    rw [hS, pairPop_cons m S r rest hmS]
    exact ⟨rfl, rfl, rfl⟩
  · intro jp u8 rstatus rclen rbody
    obtain ⟨v, hv⟩ := renderPayload_exists (maskedPayload jp u8 rbody)
    exact ⟨v, hv, renderChars_nl v⟩

/-- C7 (amended): the request-body field of every emitted line is a valid
single-line JSON text — the dump of some JSON value, containing no newline
— but its top-level value may be any JSON kind (string, object, array,
number, boolean or null), not only the three kinds the claim lists. -/
theorem C7_request_body_single_line_json :
    ∀ (jp : String → Option Json) (u8 : List Nat → String) (tf : String → Option String)
      (m : SMap) (parts : List String) (m' : SMap) (l : LogLine),
      processReq jp u8 tf m parts = some (m', some l) →
      ∃ v : Json, l.req_body_json = dumps v ∧ '\n' ∉ (dumps v).data := by
  intro jp u8 tf m parts m' l h
  obtain ⟨h15, t, ht, hm, hl⟩ := processReq_some_line jp u8 tf m parts m' l h
  subst hl
  obtain ⟨v, hv⟩ := renderPayload_exists (maskedPayload jp u8 (fld parts 14))
  exact ⟨v, hv, renderChars_nl v⟩

/-- C7 (refutation of the claim as stated): it is not true that every
emitted request-body field encodes a string, object or array: a body
consisting of the bare text 3 is parsed by `json.loads` to the number 3
(modelled by the `jp` instantiation below, which maps exactly that input to
`Json.num 3`) and dumped as the number literal 3. -/
theorem C7_counterexample :
    ¬ (∀ (jp : String → Option Json) (u8 : List Nat → String) (tf : String → Option String)
        (m : SMap) (parts : List String) (m' : SMap) (l : LogLine),
        processReq jp u8 tf m parts = some (m', some l) →
        ∃ v : Json, l.req_body_json = dumps v ∧ isStrObjArr v = true) := by
  intro hclaim
  have h := hclaim (fun s => if s = ("3") then some (Json.num 3) else none)
    (fun _ => "") (fun _ => none) emptySMap
    ["", "1", "a", "b", "c", "d", "e", "f", "g", "h", "i", "j", "k", "l", "3"]
    emptySMap
    (buildLine (fun s => if s = ("3") then some (Json.num 3) else none)
      (fun _ => "") ["", "1", "a", "b", "c", "d", "e", "f", "g", "h", "i", "j", "k", "l", "3"]
      ("[-]") none)
    rfl
  obtain ⟨v, hv, hk⟩ := h
  have hv3 : dumps v = ("3") := by
    rw [← hv]
    rfl
  exact dumps_str_obj_arr_ne_three v hk hv3

/-- C9: the emitted line is independent of the full-URL and host columns
(indices 8 and 9): two long-enough request tuples equal everywhere else
produce identical processReq results against any correlator state, and the
printed request-target is always the raw request-path column (or "/" when
empty) — the URL-resolution step has no observable effect. -/
theorem C9_url_independence :
    ∀ (jp : String → Option Json) (u8 : List Nat → String) (tf : String → Option String)
      (m : SMap) (p q : List String),
      ¬ p.length < 15 → ¬ q.length < 15 →
      (∀ i, i < 15 → i ≠ 8 → i ≠ 9 → fld p i = fld q i) →
      processReq jp u8 tf m p = processReq jp u8 tf m q
      ∧ (∀ (m' : SMap) (l : LogLine), processReq jp u8 tf m p = some (m', some l) →
          l.request_line =
            (if fld p 6 = "" then "-" else fld p 6) ++ " " ++
            (if fld p 7 = "" then "/" else fld p 7) ++ " " ++
            (if fld p 10 = "" then "-" else fld p 10)) := by
  intro jp u8 tf m p q hp hq hf
  have e0 : fld p 0 = fld q 0 := hf 0 (by omega) (by omega) (by omega)
  have e1 : fld p 1 = fld q 1 := hf 1 (by omega) (by omega) (by omega)
  have e2 : fld p 2 = fld q 2 := hf 2 (by omega) (by omega) (by omega)
  have e3 : fld p 3 = fld q 3 := hf 3 (by omega) (by omega) (by omega)
  have e4 : fld p 4 = fld q 4 := hf 4 (by omega) (by omega) (by omega)
  have e5 : fld p 5 = fld q 5 := hf 5 (by omega) (by omega) (by omega)
  have e6 : fld p 6 = fld q 6 := hf 6 (by omega) (by omega) (by omega)
  have e7 : fld p 7 = fld q 7 := hf 7 (by omega) (by omega) (by omega)
  have e10 : fld p 10 = fld q 10 := hf 10 (by omega) (by omega) (by omega)
  have e11 : fld p 11 = fld q 11 := hf 11 (by omega) (by omega) (by omega)
  have e12 : fld p 12 = fld q 12 := hf 12 (by omega) (by omega) (by omega)
  have e14 : fld p 14 = fld q 14 := hf 14 (by omega) (by omega) (by omega)
  constructor
  · rcases hto : timeOpt tf (fld p 0) with _ | t
    · rw [processReq_time_none jp u8 tf m p hp hto,
        processReq_time_none jp u8 tf m q hq (by rw [← e0]; exact hto)]
    · have hto' : timeOpt tf (fld q 0) = some t := by rw [← e0]; exact hto
      rw [processReq_eq jp u8 tf m p hp t hto, processReq_eq jp u8 tf m q hq t hto', e1]
      have hb : buildLine jp u8 p t (pairPop m (reqSid (fld q 1))).1 =
          buildLine jp u8 q t (pairPop m (reqSid (fld q 1))).1 := by
        unfold buildLine
        rw [e2, e3, e4, e5, e6, e7, e10, e11, e12, e14]
      rw [hb]
  · intro m' l h
    obtain ⟨h15, t, ht, hm, hl⟩ := processReq_some_line jp u8 tf m p m' l h
    subst hl
    rfl

/-- C1: responses are appended to their session's pending queue in input
order (the preload phase only ever appends, preserving stream order), and
requests pop from the front: with three responses R1, R2, R3 queued for
session S and two valid request tuples for S processed in order, the first
emitted line carries R1's status, byte size and body, the second carries
R2's, R3 remains queued (unmatched), and — for any stream — every queue of
the final correlator is a suffix of the initial one, so no response record
is ever paired with more than one request. -/
theorem C1_fifo_pairing
    (jp : String → Option Json) (u8 : List Nat → String) (tf : String → Option String)
    (rts : List (List String)) (S : Int) (r1 r2 r3 : RRec) (p1 p2 : List String)
    (hq : ingest jp u8 rts S = [r1, r2, r3])
    (h1 : ¬ p1.length < 15) (hs1 : reqSid (fld p1 1) = some S)
    (t1 : String) (ht1 : timeOpt tf (fld p1 0) = some t1)
    (h2 : ¬ p2.length < 15) (hs2 : reqSid (fld p2 1) = some S)
    (t2 : String) (ht2 : timeOpt tf (fld p2 0) = some t2) :
    (∃ l1 l2,
      (processReqs jp u8 tf (ingest jp u8 rts) [p1, p2]).2 = [l1, l2] ∧
      l1.status_s = (if r1.status = "" then "-" else r1.status) ∧
      l1.bytes_b = toString r1.size ∧ l1.res_body_json = r1.body_json ∧
      l2.status_s = (if r2.status = "" then "-" else r2.status) ∧
      l2.bytes_b = toString r2.size ∧ l2.res_body_json = r2.body_json ∧
      (processReqs jp u8 tf (ingest jp u8 rts) [p1, p2]).1 S = [r3])
    ∧ (∀ (m : SMap) (ts : List (List String)) (S' : Int),
        ingestFrom jp u8 m ts S' = m S' ++ ingest jp u8 ts S')
    ∧ (∀ (m : SMap) (ts : List (List String)) (S' : Int),
        ∃ k, (processReqs jp u8 tf m ts).1 S' = (m S').drop k) := by
  refine ⟨?_, fun m ts S' => ingestFrom_app jp u8 ts m S',
    fun m ts S' => processReqs_drop jp u8 tf ts m S'⟩
  have hpp1 := pairPop_cons (ingest jp u8 rts) S r1 [r2, r3] hq
  have hstep1 : processReq jp u8 tf (ingest jp u8 rts) p1 =
      some ((fun k => if k = S then [r2, r3] else ingest jp u8 rts k : SMap),
            some (buildLine jp u8 p1 t1 (some r1))) := by
    rw [processReq_eq jp u8 tf (ingest jp u8 rts) p1 h1 t1 ht1, hs1, hpp1]
  have hmid : (fun k => if k = S then [r2, r3] else ingest jp u8 rts k : SMap) S = [r2, r3] := by
    simp
  have hpp2 := pairPop_cons
    ((fun k => if k = S then [r2, r3] else ingest jp u8 rts k : SMap)) S r2 [r3] hmid
  have hstep2 : processReq jp u8 tf
      ((fun k => if k = S then [r2, r3] else ingest jp u8 rts k : SMap)) p2 =
      some ((fun k => if k = S then [r3]
              else (fun k' => if k' = S then [r2, r3] else ingest jp u8 rts k' : SMap) k : SMap),
            some (buildLine jp u8 p2 t2 (some r2))) := by
    rw [processReq_eq jp u8 tf
      ((fun k => if k = S then [r2, r3] else ingest jp u8 rts k : SMap)) p2 h2 t2 ht2, hs2, hpp2]
  have hrw1 := processReqs_cons_line jp u8 tf (ingest jp u8 rts)
    ((fun k => if k = S then [r2, r3] else ingest jp u8 rts k : SMap)) p1 [p2]
    (buildLine jp u8 p1 t1 (some r1)) hstep1
  have hrw2 := processReqs_cons_line jp u8 tf
    ((fun k => if k = S then [r2, r3] else ingest jp u8 rts k : SMap))
    ((fun k => if k = S then [r3]
        else (fun k' => if k' = S then [r2, r3] else ingest jp u8 rts k' : SMap) k : SMap))
    p2 [] (buildLine jp u8 p2 t2 (some r2)) hstep2
  refine ⟨buildLine jp u8 p1 t1 (some r1), buildLine jp u8 p2 t2 (some r2),
    ?_, rfl, rfl, rfl, rfl, rfl, rfl, ?_⟩
  · rw [hrw1, hrw2]
    rfl
  · rw [hrw1, hrw2]
    simp [processReqs]

/-- C2 (divergence witness): a request tuple with 15 columns whose
timestamp column is the non-numeric text x produces no log line at all:
the source calls `float(ts)` without a guard, which raises ValueError and
aborts the request loop (modelled by the `tf` instantiation returning
`none` for exactly that input), so the "exactly one line per 15-column
tuple" ordering guarantee fails on this input, while §7 of the
specification requires unresolvable timestamps to render as a placeholder
without aborting. -/
theorem C2_order_preservation_crash :
    (["x", "1", "a", "b", "c", "d", "e", "f", "g", "h", "i", "j", "k", "l", "m"] :
        List String).length = 15 ∧
    emittedLines (fun _ => none) (fun _ => "")
        (fun s => if s = ("x") then none else some ("[t]"))
        [] [["x", "1", "a", "b", "c", "d", "e", "f", "g", "h", "i", "j", "k", "l", "m"]] = [] :=
  ⟨rfl, rfl⟩

/-! Witnesses: each theorem with hypotheses applied at one concrete input. -/

/-- Witness for C1 at a concrete three-response, two-request scenario for
session 7. -/
theorem C1_fifo_pairing_witness :
    ∃ l1 l2,
      (processReqs (fun _ => none) (fun _ => "") (fun _ => none)
          (ingest (fun _ => none) (fun _ => "")
            [["1", "7", "200", "3", "ct", "abc"],
             ["2", "7", "201", "", "ct", "abcd"],
             ["3", "7", "202", "x", "ct", "zz"]])
          [["", "7", "10.0.0.1", "1", "10.0.0.2", "2", "GET", "/a", "", "", "HTTP/1.1", "ua", "", "ct", "b"],
           ["", "7", "10.0.0.1", "3", "10.0.0.2", "2", "POST", "/b", "", "", "HTTP/1.1", "ua", "", "ct", "c"]]).2
        = [l1, l2] ∧
      l1.status_s = ("200") ∧ l1.bytes_b = ("3") ∧ l1.res_body_json = ("\"abc\"") ∧
      l2.status_s = ("201") ∧ l2.bytes_b = ("2") ∧ l2.res_body_json = ("\"\"") ∧
      (processReqs (fun _ => none) (fun _ => "") (fun _ => none)
          (ingest (fun _ => none) (fun _ => "")
            [["1", "7", "200", "3", "ct", "abc"],
             ["2", "7", "201", "", "ct", "abcd"],
             ["3", "7", "202", "x", "ct", "zz"]])
          [["", "7", "10.0.0.1", "1", "10.0.0.2", "2", "GET", "/a", "", "", "HTTP/1.1", "ua", "", "ct", "b"],
           ["", "7", "10.0.0.1", "3", "10.0.0.2", "2", "POST", "/b", "", "", "HTTP/1.1", "ua", "", "ct", "c"]]).1
        7 = [RRec.mk ("202") 2 ("\"zz\"")] :=
  (C1_fifo_pairing (fun _ => none) (fun _ => "") (fun _ => none)
    [["1", "7", "200", "3", "ct", "abc"],
     ["2", "7", "201", "", "ct", "abcd"],
     ["3", "7", "202", "x", "ct", "zz"]]
    7 (RRec.mk ("200") 3 ("\"abc\"")) (RRec.mk ("201") 2 ("\"\"")) (RRec.mk ("202") 2 ("\"zz\""))
    ["", "7", "10.0.0.1", "1", "10.0.0.2", "2", "GET", "/a", "", "", "HTTP/1.1", "ua", "", "ct", "b"]
    ["", "7", "10.0.0.1", "3", "10.0.0.2", "2", "POST", "/b", "", "", "HTTP/1.1", "ua", "", "ct", "c"]
    rfl (by decide) rfl ("[-]") rfl (by decide) rfl ("[-]") rfl).1

/-- Witness for C3: a body that is neither JSON nor hex passes through the
masking step unchanged. -/
theorem C3_masking_witness :
    maskedPayload (fun _ => none) (fun _ => "") ("hi") =
      (parse_body_to_json (fun _ => none) (fun _ => "") ("hi")).1 :=
  (C3_masking).2.2.2.2.2.2.2 (fun _ => none) (fun _ => "") ("hi") rfl

/-- Witness for C4 at the hex body 7b whose decode (under the concrete
collaborator functions) is not JSON. -/
theorem C4_body_normalizer_witness :
    parse_body_to_json (fun _ => none) (fun _ => "") ("7b") = (Sum.inr (""), false) :=
  (C4_body_normalizer (fun _ => none) (fun _ => "") ("7b")).2.2.1 rfl rfl (by decide) rfl

/-- Witness for C5: the UTF-8 fallback clause applied at a non-digit
content-length and non-hex body. -/
theorem C5_size_resolution_witness :
    resolve_size ("") ("zz") = String.utf8ByteSize ("zz") :=
  (C5_size_resolution).2.2.1 ("") ("zz") rfl rfl

/-- Witness for C6 at a request tuple for session 9 against the empty
correlator. -/
theorem C6_unmatched_and_matched_fields_witness :
    (buildLine (fun _ => none) (fun _ => "")
        ["", "9", "a", "b", "c", "d", "e", "f", "g", "h", "i", "j", "k", "l", "m"]
        ("[-]") none).status_s = ("-") ∧
    (buildLine (fun _ => none) (fun _ => "")
        ["", "9", "a", "b", "c", "d", "e", "f", "g", "h", "i", "j", "k", "l", "m"]
        ("[-]") none).bytes_b = ("-") ∧
    (buildLine (fun _ => none) (fun _ => "")
        ["", "9", "a", "b", "c", "d", "e", "f", "g", "h", "i", "j", "k", "l", "m"]
        ("[-]") none).res_body_json = ("null") :=
  (C6_unmatched_and_matched_fields).1 (fun _ => none) (fun _ => "") (fun _ => none)
    emptySMap ["", "9", "a", "b", "c", "d", "e", "f", "g", "h", "i", "j", "k", "l", "m"]
    emptySMap
    (buildLine (fun _ => none) (fun _ => "")
      ["", "9", "a", "b", "c", "d", "e", "f", "g", "h", "i", "j", "k", "l", "m"]
      ("[-]") none)
    rfl (Or.inr ⟨9, rfl, rfl⟩)

/-- Witness for C7 (amended) at a request tuple with a plain-text body. -/
theorem C7_request_body_single_line_json_witness :
    ∃ v : Json,
      (buildLine (fun _ => none) (fun _ => "")
          ["", "4", "a", "b", "c", "d", "e", "f", "g", "h", "i", "j", "k", "l", "hello"]
          ("[-]") none).req_body_json = dumps v ∧
      '\n' ∉ (dumps v).data :=
  C7_request_body_single_line_json (fun _ => none) (fun _ => "") (fun _ => none)
    emptySMap ["", "4", "a", "b", "c", "d", "e", "f", "g", "h", "i", "j", "k", "l", "hello"]
    emptySMap
    (buildLine (fun _ => none) (fun _ => "")
      ["", "4", "a", "b", "c", "d", "e", "f", "g", "h", "i", "j", "k", "l", "hello"]
      ("[-]") none)
    rfl

/-- Witness for C8 at a tuple with method, path and version present. -/
theorem C8_request_line_witness :
    (buildLine (fun _ => none) (fun _ => "")
        ["", "5", "s", "1", "d", "2", "GET", "/a", "", "", "HTTP/1.1", "u", "r", "ct", "b"]
        ("[-]") none).request_line = ("GET /a HTTP/1.1") :=
  C8_request_line (fun _ => none) (fun _ => "") (fun _ => none) emptySMap
    ["", "5", "s", "1", "d", "2", "GET", "/a", "", "", "HTTP/1.1", "u", "r", "ct", "b"]
    emptySMap
    (buildLine (fun _ => none) (fun _ => "")
      ["", "5", "s", "1", "d", "2", "GET", "/a", "", "", "HTTP/1.1", "u", "r", "ct", "b"]
      ("[-]") none)
    rfl

/-- Witness for C9 at two tuples that differ exactly in the full-URL and
host columns. -/
theorem C9_url_independence_witness :
    processReq (fun _ => none) (fun _ => "") (fun _ => none) emptySMap
        ["", "5", "s", "1", "d", "2", "GET", "/a", "URLA", "HOSTA", "HTTP/1.1", "u", "r", "ct", "b"] =
      processReq (fun _ => none) (fun _ => "") (fun _ => none) emptySMap
        ["", "5", "s", "1", "d", "2", "GET", "/a", "URLB", "HOSTB", "HTTP/1.1", "u", "r", "ct", "b"] :=
  (C9_url_independence (fun _ => none) (fun _ => "") (fun _ => none) emptySMap
    ["", "5", "s", "1", "d", "2", "GET", "/a", "URLA", "HOSTA", "HTTP/1.1", "u", "r", "ct", "b"]
    ["", "5", "s", "1", "d", "2", "GET", "/a", "URLB", "HOSTB", "HTTP/1.1", "u", "r", "ct", "b"]
    (by decide) (by decide)
    (by
      intro i hi h8 h9
      interval_cases i <;> first | rfl | omega)).1

/-- Witness for C10: an unparseable session id drops the response tuple but
still yields a full, unmatched log line for the request tuple. -/
theorem C10_sid_parse_asymmetry_witness :
    ingestOne (fun _ => none) (fun _ => "") emptySMap
        ["1", "zz", "200", "3", "ct", "b"] = emptySMap ∧
    processReq (fun _ => none) (fun _ => "") (fun _ => none) emptySMap
        ["", "zz", "s", "1", "d", "2", "GET", "/a", "", "", "HTTP/1.1", "u", "r", "ct", "b"] =
      some (emptySMap, some (buildLine (fun _ => none) (fun _ => "")
        ["", "zz", "s", "1", "d", "2", "GET", "/a", "", "", "HTTP/1.1", "u", "r", "ct", "b"]
        ("[-]") none)) :=
  ⟨(C10_sid_parse_asymmetry).1 (fun _ => none) (fun _ => "") emptySMap
      ["1", "zz", "200", "3", "ct", "b"] (by decide) rfl,
   ((C10_sid_parse_asymmetry).2 (fun _ => none) (fun _ => "") (fun _ => none) emptySMap
      ["", "zz", "s", "1", "d", "2", "GET", "/a", "", "", "HTTP/1.1", "u", "r", "ct", "b"]
      (by decide) rfl ("[-]") rfl).1⟩

end ExtractHttpLog



